import Mathlib

/-!
Verification development for the `cloud-cli` container deployment tool.

The Lean definitions below are a shallow embedding of the JavaScript source:

* `src/lib/utils.js` — the `autoDetect` resolver (part 1) and the
  `ContainerDetector` class (part 2): `detect`, `scaffold` name/class
  resolution, `getSmartMigrationTag`, `mergeWranglerConfig`,
  `generateWranglerConfig`;
* `src/unnamed/part_000` — the CLI entry point (`main`) with its exit-code
  policy.

Modelling conventions:

* Detector confidences in the source are the floating-point literals
  0.95, 0.9, 0.85, 0.8, 0.7, 0.6 with near-tie threshold 0.1.  Every one of
  these is an exact multiple of 1/100, so a confidence is embedded as the
  natural number of hundredths (95, 90, 85, 80, 70, 60; threshold 10).
  Every comparison exercised by a claim below coincides with the JS float
  comparison at the same values.  One divergence exists outside the
  claims' domains: JS double subtraction makes some exact-0.1 gaps test
  as near-ties (0.95 - 0.85 evaluates to 0.09999999999999998 < 0.1)
  while on hundredths 95 - 85 < 10 is false; no claim concerns an
  exact-0.1 gap.
* The CLI option parser is Commander.  Its `--no-prompt` option
  (part_000 line 32) is a negated boolean: parsing it sets
  `opts.prompt = false` and never creates a `noPrompt` property, while
  the resolver reads `opts.noPrompt` (utils.js line 61).  The options
  object is embedded as an explicit record with both fields, the absent
  property as `none`, and the parse of the flag as a function.
* Filesystem evidence is embedded at the evidence-scanner boundary: a
  record of the facts the detector reads (first Dockerfile-like file found,
  compose file found, `.env` content, ...).
* `mergeWranglerConfig` in the source refers to the identifiers `opts` and
  `ctx` (lines 607 and 613) which are not bound in its scope — its
  parameters are `(wranglerPath, className, bindingName, dockerfilePath,
  maxInstances)` and neither the module nor the class binds `opts`/`ctx`.
  The branch that reaches those references therefore raises a
  `ReferenceError`, which the surrounding try/catch logs and re-throws
  before any file write.  That branch is embedded as `Except.error ()`.
* JavaScript string primitives used by the source (`split`, `includes`,
  `replace` with a string pattern = first occurrence only,
  `toUpperCase`, `path.extname`, the `^IMAGE\s*=\s*(.+)$` regex) are
  embedded as executable functions on `List Char` below.
-/

/-- JavaScript `String.prototype.split` with a single-character separator,
on character lists.  `split` of the empty string yields `[""]`, like JS. -/
def splitOnChar (sep : Char) : List Char → List (List Char)
  | [] => [[]]
  | c :: cs =>
    if c = sep then [] :: splitOnChar sep cs
    else
      match splitOnChar sep cs with
      | [] => [[c]]
      | g :: gs => (c :: g) :: gs

/-- JavaScript `String.prototype.includes` for a single character. -/
def jsIncludes (s : String) (c : Char) : Bool :=
  s.data.contains c

/-- JavaScript `String.prototype.toUpperCase` (ASCII range, which is all the
source ever feeds it). -/
def jsToUpper (s : String) : String :=
  String.mk (s.data.map Char.toUpper)

/-- The suffix of a character list starting at its last `'.'`, if any.
Helper for `jsExtname`. -/
def dotSuffix : List Char → Option (List Char)
  | [] => none
  | c :: cs =>
    match dotSuffix cs with
    | some e => some e
    | none => if c = '.' then some (c :: cs) else none

/-- Node's `path.extname`: the extension of the final path segment, empty
when the segment has no dot after its first character (so dot-files such
as `.env` have no extension). -/
def jsExtname (p : String) : String :=
  match (splitOnChar '/' p.data).getLastD [] with
  | [] => ""
  | _ :: rest =>
    match dotSuffix rest with
    | some e => String.mk e
    | none => ""

/-- JavaScript `replace(pat, '')` with a string pattern: remove the first
occurrence of `pat` only, on character lists. -/
def replaceFirstList (pat : List Char) : List Char → List Char
  | [] => []
  | c :: cs =>
    if pat.isPrefixOf (c :: cs) then (c :: cs).drop pat.length
    else c :: replaceFirstList pat cs

/-- Quote stripping of utils.js line 226, `.replace(/['"]/g, '')` — strip every single and
double quote character. -/
def stripQuotes (s : String) : String :=
  String.mk (s.data.filter (fun c => c != '\'' && c != '"'))

/-- One line of an `.env` file matched against the source regex
`^IMAGE\s*=\s*(.+)$` (utils.js line 224), with the quote-stripping of
line 226 applied to the captured value. -/
def parseImageLine (line : List Char) : Option String :=
  if "IMAGE".data.isPrefixOf line then
    match (line.drop 5).dropWhile Char.isWhitespace with
    | '=' :: rest =>
      let v := rest.dropWhile Char.isWhitespace
      if v.isEmpty then none else some (stripQuotes (String.mk v))
    | _ => none
  else none

/-- Embeds `envContent.match(/^IMAGE\s*=\s*(.+)$/m)` (utils.js lines 223–226): the
first line of the file carrying an `IMAGE=` assignment, value with quotes
stripped. -/
def parseEnvImage (content : String) : Option String :=
  (splitOnChar '\n' content.data).findSome? parseImageLine

/-- Sanitizer of `utils.js` line 253: `replace(/[^a-zA-Z0-9-]/g, '-')`
applied characterwise. -/
def sanitizeProjectChar (c : Char) : Char :=
  if c.isAlphanum || c = '-' then c else '-'

/-- Project-name derivation from an image reference (utils.js line 253):
`image.split('/').pop().split(':')[0].replace(/[^a-zA-Z0-9-]/g, '-')`. -/
def deriveProjectName (image : String) : String :=
  let lastSegment := (splitOnChar '/' image.data).getLastD []
  let beforeTag := (splitOnChar ':' lastSegment).headD []
  String.mk (beforeTag.map sanitizeProjectChar)

/-- Candidate class name from a project name (utils.js line 266):
capitalize the first character, delete every `'-'` from the remainder and
append `"Container"`. -/
def baseClassName (projectName : String) : String :=
  match projectName.data with
  | [] => "Container"
  | c :: rest => String.mk (c.toUpper :: rest.filter (fun x => x != '-')) ++ "Container"

/-- Fuelled form of the `while` loop of `generateUniqueClassName`
(utils.js lines 439–445): try `base ++ toString counter` for increasing
`counter` until the name is unused.  The fuel `existing.length + 1` given
by `generateUniqueClassName` always suffices, because the candidates are
pairwise distinct while `existing` is finite, so the `fuel = 0` fallback is
never reached on the calls the tool makes. -/
def genUniqueAux (existing : List String) (base : String) : Nat → Nat → String
  | 0, _ => base
  | fuel + 1, counter =>
    let name := base ++ toString counter
    if existing.contains name then genUniqueAux existing base fuel (counter + 1)
    else name

/-- Embeds `ContainerDetector.generateUniqueClassName` (utils.js lines 402–448)
with the set of already-used class names supplied as a list. -/
def generateUniqueClassName (existing : List String) (base : String) : String :=
  if existing.contains base then genUniqueAux existing base (existing.length + 1) 1
  else base

/-- The uppercased class name with the first occurrence of `"CONTAINER"`
removed — the left half of the binding-name derivation of utils.js
line 270. -/
def strippedUpper (className : String) : String :=
  String.mk (replaceFirstList "CONTAINER".data (jsToUpper className).data)

/-- Binding-name derivation (utils.js line 270):
`className.toUpperCase().replace('CONTAINER', '') + '_CONTAINER'`. -/
def deriveBindingName (className : String) : String :=
  strippedUpper className ++ "_CONTAINER"

/-- The generated build descriptor for a remote image (utils.js
lines 300–301): `FROM <image>` followed by `EXPOSE 8080`. -/
def generatedDockerfile (image : String) : String :=
  "FROM " ++ image ++ "\nEXPOSE 8080"

/-- Filesystem facts read by `ContainerDetector.detect` (utils.js
lines 181–237), gathered at the evidence-scanner boundary:
the positional arguments, the first existing file among
`Dockerfile`/`Containerfile`/`dockerfile`, the first existing compose file,
presence of `.docker/`, the text of `.env` when present, and presence of
`manifest.json`. -/
structure Evidence where
  args : List String
  dockerfile : Option String
  composeFile : Option String
  hasDockerDir : Bool
  envContent : Option String
  hasManifest : Bool
deriving DecidableEq, Repr

/-- The detection result built by `ContainerDetector.detect` (utils.js
lines 239–244); `confidence` is in hundredths. -/
structure Detection where
  confidence : Nat
  indicators : List String
  image : Option String
  dockerfilePath : Option String
deriving DecidableEq, Repr

/-- Embeds `ContainerDetector.detect` (utils.js lines 181–245).  Signals are
evaluated in source order; confidence is a running maximum (the leading
argument check assigns 0.95 directly, every later signal uses
`Math.max`); the `.env` signal overwrites `image`; `null` is returned
exactly when the confidence stayed 0. -/
def detect (ev : Evidence) : Option Detection :=
  let st0 : Detection := ⟨0, [], none, none⟩
  let st1 : Detection :=
    match ev.args with
    | arg :: _ =>
      if (jsIncludes arg ':' || jsIncludes arg '/') && (jsExtname arg == "") then
        { st0 with confidence := 95,
                   indicators := ["Explicit image reference: " ++ arg],
                   image := some arg }
      else st0
    | [] => st0
  let st2 : Detection :=
    match ev.dockerfile with
    | some df =>
      { st1 with confidence := max st1.confidence 90,
                 indicators := st1.indicators ++ ["Found " ++ df],
                 dockerfilePath := some df }
    | none => st1
  let st3 : Detection :=
    match ev.composeFile with
    | some cf =>
      { st2 with confidence := max st2.confidence 70,
                 indicators := st2.indicators ++ ["Found " ++ cf] }
    | none => st2
  let st4 : Detection :=
    if ev.hasDockerDir then
      { st3 with confidence := max st3.confidence 60,
                 indicators := st3.indicators ++ ["Found .docker directory"] }
    else st3
  let st5 : Detection :=
    match ev.envContent.bind parseEnvImage with
    | some v =>
      { st4 with confidence := max st4.confidence 80,
                 indicators := st4.indicators ++ ["Found IMAGE in .env: " ++ v],
                 image := some v }
    | none => st4
  let st6 : Detection :=
    if ev.hasManifest then
      { st5 with confidence := max st5.confidence 85,
                 indicators := st5.indicators ++ ["Found OCI manifest.json"] }
    else st5
  if st6.confidence = 0 then none else some st6

/-- Project-name resolution in `scaffold` (utils.js lines 250–257):
explicit `--name` override, else derived from the image, else the working
directory's base name. -/
def resolveProjectName (nameOverride : Option String) (image : Option String)
    (cwdBase : String) : String :=
  match nameOverride with
  | some n => n
  | none =>
    match image with
    | some img => deriveProjectName img
    | none => cwdBase

/-- Class-name resolution in `scaffold` (utils.js lines 261–268): an
existing container entry for the same source wins, else the `--class`
override, else a generated unique name. -/
def resolveClassName (classOverride : Option String) (existingContainerClass : Option String)
    (projectName : String) (existingClasses : List String) : String :=
  match existingContainerClass with
  | some c => c
  | none =>
    match classOverride with
    | some c => c
    | none => generateUniqueClassName existingClasses (baseClassName projectName)

/-- Embeds `ContainerDetector.getSmartMigrationTag` (utils.js lines 534–545). -/
def getSmartMigrationTag (hasExistingWorker hasExistingPackage hasNodeModules : Bool) : String :=
  if (hasExistingWorker && hasExistingPackage) || hasNodeModules then "v10" else "v1"

/-- One entry of the `migrations` array of `wrangler.jsonc`
(`new_sqlite_classes` may be absent in a hand-written file, which the
source reads through `?.` / lazy initialisation). -/
structure Migration where
  tag : String
  new_sqlite_classes : Option (List String)
deriving DecidableEq, Repr

/-- One entry of the `containers` array of `wrangler.jsonc`. -/
structure ContainerEntry where
  class_name : String
  image : String
  max_instances : Nat
  instance_type : String
deriving DecidableEq, Repr

/-- One entry of `durable_objects.bindings`. -/
structure DOBinding where
  class_name : String
  name : String
deriving DecidableEq, Repr

/-- The `durable_objects` object of `wrangler.jsonc`. -/
structure DurableObjects where
  bindings : List DOBinding
deriving DecidableEq, Repr

/-- The fields of `wrangler.jsonc` that `mergeWranglerConfig` reads or
writes (absent arrays are embedded as `[]`, matching the lazy
initialisation at utils.js lines 553, 576–581, 595–597, 640–642).
`compatibility_date`, `main` and `observability` are written only by
`generateWranglerConfig` and never read back, and the date comes from the
wall clock, so they are not part of the model. -/
structure WranglerConfig where
  name : String
  containers : List ContainerEntry
  durable_objects : DurableObjects
  migrations : List Migration
  compatibility_flags : List String
deriving DecidableEq, Repr

deriving instance DecidableEq for Except

/-- Whether a migration's `new_sqlite_classes` mentions `c` — JavaScript
`migration.new_sqlite_classes?.includes(className)` (utils.js line 600). -/
def migContains (m : Migration) (c : String) : Bool :=
  (m.new_sqlite_classes.getD []).any (fun x => x == c)

/-- Embeds `existingConfig.migrations.some(...)` (utils.js lines 599–601). -/
def classRegistered (c : String) (migrations : List Migration) : Bool :=
  migrations.any (fun m => migContains m c)

/-- The number of migrations whose class list mentions `c` (specification
device used to state the at-most-one-migration invariant). -/
def migCount (c : String) (migrations : List Migration) : Nat :=
  (migrations.filter (fun m => migContains m c)).length

/-- The migration-allocation step of `mergeWranglerConfig` (utils.js
lines 599–638).  When the class is already registered nothing changes.
Otherwise `latestMigration = migrations[migrations.length - 1]`; when the
array is empty the source evaluates `opts.migrationTag` (line 607) with
`opts` unbound and raises a `ReferenceError`, embedded as
`Except.error ()`.  When a latest migration exists: with 3 or more
registered classes a new migration tagged `"v" + (migrations.length + 1)`
holding only the class is pushed, else the class is appended to the
latest migration's list (initialised to `[]` when the field was absent,
line 619–621). -/
def mergeMigrations (className : String) (migrations : List Migration) :
    Except Unit (List Migration) :=
  if classRegistered className migrations then
    .ok migrations
  else if h : migrations = [] then
    .error ()
  else
    let latestMigration := migrations.getLast h
    let classes := latestMigration.new_sqlite_classes.getD []
    if 3 ≤ classes.length then
      .ok (migrations ++
        [{ tag := "v" ++ toString (migrations.length + 1), new_sqlite_classes := some [className] }])
    else
      .ok (migrations.dropLast ++
        [{ latestMigration with new_sqlite_classes := some (classes ++ [className]) }])

/-- Container upsert of `mergeWranglerConfig` (utils.js lines 557–574):
find by image or class name, replace in place, else push. -/
def upsertContainer (containers : List ContainerEntry) (className dockerfilePath : String)
    (maxInstances : Nat) : List ContainerEntry :=
  let newContainer : ContainerEntry := ⟨className, dockerfilePath, maxInstances, "basic"⟩
  match containers.findIdx? (fun c => c.image == dockerfilePath || c.class_name == className) with
  | some i => containers.set i newContainer
  | none => containers ++ [newContainer]

/-- Binding upsert of `mergeWranglerConfig` (utils.js lines 583–593). -/
def upsertBinding (bindings : List DOBinding) (className bindingName : String) :
    List DOBinding :=
  let newBinding : DOBinding := ⟨className, bindingName⟩
  match bindings.findIdx? (fun b => b.class_name == className) with
  | some i => bindings.set i newBinding
  | none => bindings ++ [newBinding]

/-- Compatibility-flag union of `mergeWranglerConfig` (utils.js
lines 640–645). -/
def addNodejsCompat (flags : List String) : List String :=
  if flags.contains "nodejs_compat" then flags else flags ++ ["nodejs_compat"]

/-- Embeds `ContainerDetector.mergeWranglerConfig` (utils.js lines 547–652) as a
document transformation: container upsert, binding upsert, migration
allocation, flag union.  The source throws out of the migration step
(`ReferenceError` on the unbound `opts`) before `fs.writeFile` runs, so on
`Except.error` the persisted document is unchanged. -/
def mergeWranglerConfig (cfg : WranglerConfig) (className bindingName dockerfilePath : String)
    (maxInstances : Nat) : Except Unit WranglerConfig :=
  let containers := upsertContainer cfg.containers className dockerfilePath maxInstances
  let bindings := upsertBinding cfg.durable_objects.bindings className bindingName
  match mergeMigrations className cfg.migrations with
  | .error e => .error e
  | .ok ms =>
    .ok { name := cfg.name, containers := containers, durable_objects := ⟨bindings⟩,
          migrations := ms, compatibility_flags := addNodejsCompat cfg.compatibility_flags }

/-- The per-invocation arguments of one `mergeWranglerConfig` call. -/
structure MergeStep where
  className : String
  bindingName : String
  dockerfilePath : String
  maxInstances : Nat
deriving DecidableEq, Repr

/-- Repeated invocations of `mergeWranglerConfig` on the same document
(one scaffold run per step); a thrown merge aborts the sequence. -/
def mergeSequence (steps : List MergeStep) (cfg : WranglerConfig) :
    Except Unit WranglerConfig :=
  match steps with
  | [] => .ok cfg
  | s :: rest =>
    match mergeWranglerConfig cfg s.className s.bindingName s.dockerfilePath s.maxInstances with
    | .error e => .error e
    | .ok cfg1 => mergeSequence rest cfg1

/-- Embeds `ContainerDetector.generateWranglerConfig` (utils.js lines 757–789),
restricted to the modelled fields. -/
def generateWranglerConfig (projectName className bindingName dockerfilePath : String)
    (maxInstances : Nat) : WranglerConfig :=
  { name := projectName
    containers := [⟨className, dockerfilePath, maxInstances, "basic"⟩]
    durable_objects := ⟨[⟨className, bindingName⟩]⟩
    migrations := [{ tag := "v1", new_sqlite_classes := some [className] }]
    compatibility_flags := ["nodejs_compat"] }

/-- A detector result as ranked by `autoDetect` (utils.js lines 46–81):
the detector's identity and its confidence in hundredths. -/
structure DetectorResult where
  typeId : String
  confidence : Nat
deriving DecidableEq, Repr

/-- Stable descending insertion used to embed
`results.sort((a, b) => b.confidence - a.confidence)`: the new element
goes after every element of confidence greater than or equal to its own.
ECMAScript's `Array.prototype.sort` is stable, and the stable descending
reordering of a list is unique, so this insertion sort is extensionally
the source's sort. -/
def insertDesc (r : DetectorResult) : List DetectorResult → List DetectorResult
  | [] => [r]
  | x :: xs => if x.confidence < r.confidence then r :: x :: xs else x :: insertDesc r xs

/-- The stable descending sort of `autoDetect` (utils.js line 58). -/
def sortDesc (results : List DetectorResult) : List DetectorResult :=
  results.foldl (fun acc r => insertDesc r acc) []

/-- Outcome of resolution: a chosen result, or a handoff to the
interactive prompt with the ranked candidate list (utils.js
lines 65–77). -/
inductive Resolution where
  | value (r : DetectorResult)
  | prompt (choices : List DetectorResult)
deriving DecidableEq, Repr

/-- The subset of the Commander options object relevant to prompting.
`prompt` is the negated boolean Commander maintains for the
`--no-prompt` option (default `true`, set to `false` by the flag);
`noPrompt` is the property the source reads (utils.js lines 61 and 276),
which Commander never creates — it is `none` unless something else (the
`Object.assign(opts, ctx.config)` of part_000 line 41) injects it. -/
structure PromptOpts where
  prompt : Bool
  noPrompt : Option Bool
deriving DecidableEq, Repr

/-- Commander's parse of the `--no-prompt` flag (part_000 line 32): a
negated boolean option sets `opts.prompt` to the negation of the flag
and produces no `noPrompt` property. -/
def parseNoPromptFlag (flagGiven : Bool) : PromptOpts :=
  { prompt := !flagGiven, noPrompt := none }

/-- JavaScript truthiness of the possibly-absent `opts.noPrompt`:
an absent property reads as `undefined`, which is falsy. -/
def jsTruthyNoPrompt (opts : PromptOpts) : Bool :=
  opts.noPrompt.getD false

/-- Embeds `autoDetect` (utils.js lines 46–81): collect results, sort descending
by confidence, return `none` when empty; on a near-tie (gap of the top
two below 0.1, i.e. 10 hundredths) return the top result when the
`opts.noPrompt` property it reads is truthy, else hand the ranked list
to the prompt; with no near-tie return the top result. -/
def autoDetect (opts : PromptOpts) (results : List DetectorResult) : Option Resolution :=
  match sortDesc results with
  | [] => none
  | [r] => some (.value r)
  | r0 :: r1 :: rest =>
    if r0.confidence - r1.confidence < 10 then
      if jsTruthyNoPrompt opts then some (.value r0)
      else some (.prompt (r0 :: r1 :: rest))
    else some (.value r0)

/-- The `EXIT_CODES` table of utils.js lines 6–11. -/
structure ExitCodes where
  SUCCESS : Nat
  PARTIAL : Nat
  USAGE : Nat
  CONFIG : Nat
deriving DecidableEq, Repr

/-- The table `EXIT_CODES = { SUCCESS: 0, PARTIAL: 2, USAGE: 64, CONFIG: 65 }`. -/
def EXIT_CODES : ExitCodes := ⟨0, 2, 64, 65⟩

/-- A registered detector as seen by the CLI dispatcher: its `id` and
whether its `detect` returns a result on the current evidence. -/
structure DetSpec where
  id : String
  detects : Bool
deriving DecidableEq, Repr

/-- The tail of the CLI action after a detection result exists
(part_000 lines 66–101): `--detect` and `--plan` print and return
(implicit exit 0); a `null` scaffold exits `CONFIG`; with `--ship` a
failed deploy exits `PARTIAL`; otherwise the process ends successfully. -/
def mainAfterDetect (detectMode planMode ship scaffoldOk deployOk : Bool) : Nat :=
  if detectMode then EXIT_CODES.SUCCESS
  else if planMode then EXIT_CODES.SUCCESS
  else if !scaffoldOk then EXIT_CODES.CONFIG
  else if ship && !deployOk then EXIT_CODES.PARTIAL
  else EXIT_CODES.SUCCESS

/-- The CLI action of part_000 lines 35–110, with the detector outcomes
supplied as data.  `opts.type` selects
`detectors.find(d => d.id === opts.type)`; when that lookup succeeds but
the detector returns no result the process exits `CONFIG` (line 51); when
the lookup fails (unregistered type) `forcedDetector` is `undefined` and
the action falls through to auto-detection, whose empty outcome exits
`USAGE` (line 62). -/
def mainAction (detectors : List DetSpec) (typeOverride : Option String)
    (detectMode planMode ship scaffoldOk deployOk : Bool) : Nat :=
  let forcedDetector : Option DetSpec :=
    match typeOverride with
    | some t => detectors.find? (fun d => d.id == t)
    | none => none
  match forcedDetector with
  | some d =>
    if d.detects then mainAfterDetect detectMode planMode ship scaffoldOk deployOk
    else EXIT_CODES.CONFIG
  | none =>
    if detectors.any (fun d => d.detects) then
      mainAfterDetect detectMode planMode ship scaffoldOk deployOk
    else EXIT_CODES.USAGE

/-! ## Helper lemmas -/

/-- The character data of an appended string is the appended data. -/
theorem string_data_append (a b : String) : (a ++ b).data = a.data ++ b.data := by
  cases a; cases b; rfl

/-- Strings with equal character data are equal. -/
theorem string_eq_of_data_eq (a b : String) (h : a.data = b.data) : a = b := by
  cases a; cases b; simp_all

/-- The count `migCount` distributes over list append. -/
theorem migCount_append (c : String) (l1 l2 : List Migration) :
    migCount c (l1 ++ l2) = migCount c l1 + migCount c l2 := by
  simp [migCount, List.filter_append]

/-- The count `migCount` of a single migration is its indicator. -/
theorem migCount_singleton (c : String) (m : Migration) :
    migCount c [m] = if migContains m c then 1 else 0 := by
  by_cases h : migContains m c <;> simp [migCount, List.filter, h]

/-- A class is unregistered exactly when no migration counts it. -/
theorem classRegistered_false_iff (c : String) (ms : List Migration) :
    classRegistered c ms = false ↔ migCount c ms = 0 := by
  rw [migCount, List.length_eq_zero, List.filter_eq_nil_iff]
  simp [classRegistered]

/-- Merging an already-registered class is the identity (utils.js
lines 636–638). -/
theorem mergeMigrations_eq_skip (c : String) (ms : List Migration)
    (h : classRegistered c ms = true) : mergeMigrations c ms = .ok ms := by
  simp [mergeMigrations, h]

/-- Merging an unregistered class into an empty migrations array reaches
the unbound `opts` reference (utils.js line 607). -/
theorem mergeMigrations_eq_error (c : String) : mergeMigrations c [] = .error () := by
  simp [mergeMigrations, classRegistered]

/-- Merging an unregistered class when the latest migration is full pushes
a migration tagged `"v" ++ toString (length + 1)` holding only the class
(utils.js lines 623–630). -/
theorem mergeMigrations_eq_push (c : String) (ms : List Migration)
    (hreg : classRegistered c ms = false) (hne : ms ≠ [])
    (hfull : 3 ≤ ((ms.getLast hne).new_sqlite_classes.getD []).length) :
    mergeMigrations c ms =
      .ok (ms ++ [{ tag := "v" ++ toString (ms.length + 1), new_sqlite_classes := some [c] }]) := by
  simp [mergeMigrations, hreg, hne, hfull]

/-- Merging an unregistered class when the latest migration has room
appends the class to that migration (utils.js lines 631–634). -/
theorem mergeMigrations_eq_append (c : String) (ms : List Migration)
    (hreg : classRegistered c ms = false) (hne : ms ≠ [])
    (hroom : ¬ 3 ≤ ((ms.getLast hne).new_sqlite_classes.getD []).length) :
    mergeMigrations c ms =
      .ok (ms.dropLast ++
        [{ ms.getLast hne with
            new_sqlite_classes := some (((ms.getLast hne).new_sqlite_classes.getD []) ++ [c]) }]) := by
  simp [mergeMigrations, hreg, hne, hroom]

/-- A successful merge of an unregistered class yields a migrations list
counting the class exactly once and every other class unchanged. -/
theorem mergeMigrations_ok_of_unregistered (c : String) (ms : List Migration)
    (hreg : classRegistered c ms = false) (hne : ms ≠ []) :
    ∃ ms', mergeMigrations c ms = .ok ms' ∧ migCount c ms' = 1 ∧
      ∀ x, x ≠ c → migCount x ms' = migCount x ms := by
  have hcount : migCount c ms = 0 := (classRegistered_false_iff c ms).mp hreg
  by_cases hfull : 3 ≤ ((ms.getLast hne).new_sqlite_classes.getD []).length
  · refine ⟨_, mergeMigrations_eq_push c ms hreg hne hfull, ?_, ?_⟩
    · rw [migCount_append, hcount, migCount_singleton]
      simp [migContains]
    · intro x hx
      rw [migCount_append, migCount_singleton]
      have : (c == x) = false := beq_eq_false_iff_ne.mpr (Ne.symm hx)
      simp [migContains, this]
  · have hdecomp := List.dropLast_append_getLast hne
    refine ⟨_, mergeMigrations_eq_append c ms hreg hne hfull, ?_, ?_⟩
    · rw [migCount_append, migCount_singleton]
      have h0 : migCount c ms.dropLast + migCount c [ms.getLast hne] = 0 := by
        rw [← migCount_append, hdecomp]; exact hcount
      have h1 : migCount c ms.dropLast = 0 := by omega
      rw [h1]
      simp [migContains]
    · intro x hx
      have hbeq : (c == x) = false := beq_eq_false_iff_ne.mpr (Ne.symm hx)
      conv_rhs => rw [← hdecomp]
      rw [migCount_append, migCount_append, migCount_singleton, migCount_singleton]
      have : migContains
          { ms.getLast hne with
            new_sqlite_classes := some (((ms.getLast hne).new_sqlite_classes.getD []) ++ [c]) } x =
          migContains (ms.getLast hne) x := by
        simp [migContains, hbeq]
      rw [this]

/-- A merge of an unregistered class errors exactly when the migrations
array is empty. -/
theorem mergeMigrations_error_iff (c : String) (ms : List Migration) :
    mergeMigrations c ms = .error () ↔ (ms = [] ∧ classRegistered c ms = false) := by
  constructor
  · intro h
    by_cases hreg : classRegistered c ms
    · rw [mergeMigrations_eq_skip c ms hreg] at h; cases h
    · have hregf : classRegistered c ms = false := by simpa using hreg
      by_cases hne : ms = []
      · exact ⟨hne, hregf⟩
      · by_cases hfull : 3 ≤ ((ms.getLast hne).new_sqlite_classes.getD []).length
        · rw [mergeMigrations_eq_push c ms hregf hne hfull] at h; cases h
        · rw [mergeMigrations_eq_append c ms hregf hne hfull] at h; cases h
  · rintro ⟨hnil, -⟩
    subst hnil
    exact mergeMigrations_eq_error c

/-- The full wrangler merge is the migration step wrapped in the container
and binding upserts; its `migrations` field is the migration step's
output. -/
theorem mergeWranglerConfig_of_migrations_ok (cfg : WranglerConfig)
    (cn bn dp : String) (mi : Nat) (ms : List Migration)
    (h : mergeMigrations cn cfg.migrations = .ok ms) :
    mergeWranglerConfig cfg cn bn dp mi =
      .ok { name := cfg.name, containers := upsertContainer cfg.containers cn dp mi,
            durable_objects := ⟨upsertBinding cfg.durable_objects.bindings cn bn⟩,
            migrations := ms,
            compatibility_flags := addNodejsCompat cfg.compatibility_flags } := by
  simp [mergeWranglerConfig, h]

/-- A single merge step keeps every migration's class list within the
batch capacity of 3. -/
theorem mergeMigrations_length_bound (c : String) (ms ms' : List Migration)
    (hb : ∀ m ∈ ms, (m.new_sqlite_classes.getD []).length ≤ 3)
    (h : mergeMigrations c ms = .ok ms') :
    ∀ m ∈ ms', (m.new_sqlite_classes.getD []).length ≤ 3 := by
  by_cases hreg : classRegistered c ms
  · rw [mergeMigrations_eq_skip c ms hreg] at h
    cases h
    exact hb
  · have hregf : classRegistered c ms = false := by simpa using hreg
    by_cases hne : ms = []
    · subst hne; rw [mergeMigrations_eq_error] at h; cases h
    · by_cases hfull : 3 ≤ ((ms.getLast hne).new_sqlite_classes.getD []).length
      · rw [mergeMigrations_eq_push c ms hregf hne hfull] at h
        cases h
        intro m hm
        rcases List.mem_append.mp hm with hm | hm
        · exact hb m hm
        · rcases List.mem_singleton.mp hm with rfl
          simp
      · rw [mergeMigrations_eq_append c ms hregf hne hfull] at h
        cases h
        intro m hm
        rcases List.mem_append.mp hm with hm | hm
        · exact hb m (List.dropLast_subset ms hm)
        · rcases List.mem_singleton.mp hm with rfl
          have := hb (ms.getLast hne) (List.getLast_mem hne)
          simp only [Option.getD_some, List.length_append, List.length_singleton]
          omega

/-- A single full merge keeps every migration's class list within the
batch capacity of 3. -/
theorem mergeWranglerConfig_length_bound (cfg cfg' : WranglerConfig)
    (cn bn dp : String) (mi : Nat)
    (hb : ∀ m ∈ cfg.migrations, (m.new_sqlite_classes.getD []).length ≤ 3)
    (h : mergeWranglerConfig cfg cn bn dp mi = .ok cfg') :
    ∀ m ∈ cfg'.migrations, (m.new_sqlite_classes.getD []).length ≤ 3 := by
  cases hmm : mergeMigrations cn cfg.migrations with
  | error e => simp [mergeWranglerConfig, hmm] at h
  | ok ms =>
    rw [mergeWranglerConfig_of_migrations_ok cfg cn bn dp mi ms hmm] at h
    cases h
    exact mergeMigrations_length_bound cn cfg.migrations ms hb hmm

/-! ## Claim theorems -/

/-- Claim C1, counterexample to the universally quantified statement: on a
descriptor whose `migrations` array is empty, merging a class `C` that is
present in no migration does not produce a document with `C` in exactly
one migration — the merge throws (unbound `opts`, embedded as
`Except.error ()`) before any write. -/
theorem mergeWranglerConfig_empty_migrations_fails :
    migCount "FooContainer" ([] : List Migration) = 0 ∧
    mergeWranglerConfig ⟨"app", [], ⟨[]⟩, [], []⟩ "FooContainer" "FOO_CONTAINER"
      "./Dockerfile" 10 = .error () := by
  decide

/-- Claim C1, amended: for every descriptor with at least one migration
and class name not present in any migration, one merge succeeds and
registers the class in exactly one migration; a second identical merge
succeeds and leaves the migrations list identical (same tags, same class
lists, same order); and the merge preserves the invariant that any class
name appears in at most one migration. -/
theorem mergeWranglerConfig_once_then_idempotent (cfg : WranglerConfig)
    (cn bn dp : String) (mi : Nat)
    (hnew : migCount cn cfg.migrations = 0)
    (hne : cfg.migrations ≠ []) :
    ∃ cfg', mergeWranglerConfig cfg cn bn dp mi = .ok cfg' ∧
      migCount cn cfg'.migrations = 1 ∧
      (∃ cfg2, mergeWranglerConfig cfg' cn bn dp mi = .ok cfg2 ∧
        cfg2.migrations = cfg'.migrations) ∧
      (∀ x, migCount x cfg.migrations ≤ 1 → migCount x cfg'.migrations ≤ 1) := by
  have hreg : classRegistered cn cfg.migrations = false :=
    (classRegistered_false_iff cn cfg.migrations).mpr hnew
  obtain ⟨ms', hok, hone, hpres⟩ := mergeMigrations_ok_of_unregistered cn cfg.migrations hreg hne
  refine ⟨{ name := cfg.name, containers := upsertContainer cfg.containers cn dp mi,
            durable_objects := ⟨upsertBinding cfg.durable_objects.bindings cn bn⟩,
            migrations := ms',
            compatibility_flags := addNodejsCompat cfg.compatibility_flags },
          mergeWranglerConfig_of_migrations_ok cfg cn bn dp mi ms' hok, hone, ?_, ?_⟩
  · have hreg2 : classRegistered cn ms' = true := by
      cases hr : classRegistered cn ms'
      · have := (classRegistered_false_iff cn ms').mp hr
        omega
      · rfl
    have hskip : mergeMigrations cn ms' = .ok ms' := mergeMigrations_eq_skip cn ms' hreg2
    exact ⟨_, mergeWranglerConfig_of_migrations_ok _ cn bn dp mi ms' hskip, rfl⟩
  · intro x hx
    by_cases hxc : x = cn
    · subst hxc
      show migCount x ms' ≤ 1
      rw [hone]
    · show migCount x ms' ≤ 1
      rw [hpres x hxc]
      exact hx

/-- Claim C1 witness: the amended theorem applied to a concrete document
with one migration `v1 = [A]` and new class `B`. -/
theorem mergeWranglerConfig_once_then_idempotent_witness :
    ∃ cfg', mergeWranglerConfig ⟨"app", [], ⟨[]⟩, [⟨"v1", some ["A"]⟩], []⟩
        "B" "B_CONTAINER" "./Dockerfile" 10 = .ok cfg' ∧
      migCount "B" cfg'.migrations = 1 ∧
      (∃ cfg2, mergeWranglerConfig cfg' "B" "B_CONTAINER" "./Dockerfile" 10 = .ok cfg2 ∧
        cfg2.migrations = cfg'.migrations) ∧
      (∀ x, migCount x ([⟨"v1", some ["A"]⟩] : List Migration) ≤ 1 →
        migCount x cfg'.migrations ≤ 1) :=
  mergeWranglerConfig_once_then_idempotent ⟨"app", [], ⟨[]⟩, [⟨"v1", some ["A"]⟩], []⟩
    "B" "B_CONTAINER" "./Dockerfile" 10 (by decide) (by decide)

/-- Claim C2: the source cannot honour a `--migration-tag` override.  The
merge function consults no override at all when migrations exist — the
class is placed by batch allocation (here `B` lands in `v1`, not in any
overridden tag) — and when no migrations exist it faults on the unbound
`opts` before the override could be read. -/
theorem migrationTag_override_ineffective :
    mergeWranglerConfig ⟨"app", [], ⟨[]⟩, [⟨"v1", some ["A"]⟩], []⟩
        "B" "B_CONTAINER" "./Dockerfile" 10 =
      .ok ⟨"app", [⟨"B", "./Dockerfile", 10, "basic"⟩], ⟨[⟨"B", "B_CONTAINER"⟩]⟩,
           [⟨"v1", some ["A", "B"]⟩], ["nodejs_compat"]⟩ ∧
    mergeWranglerConfig ⟨"app", [], ⟨[]⟩, [], []⟩
        "B" "B_CONTAINER" "./Dockerfile" 10 = .error () := by
  decide

/-- Claim C4, counterexample to freshness: with a single full migration
tagged `v2`, merging a new class `D` allocates a migration tagged
`"v" ++ toString (1 + 1) = "v2"`, which equals the tag already present —
the result carries the tag list `["v2", "v2"]`. -/
theorem mergeWranglerConfig_tag_collision :
    mergeWranglerConfig ⟨"app", [], ⟨[]⟩, [⟨"v2", some ["A", "B", "C"]⟩], []⟩
        "D" "D_CONTAINER" "./Dockerfile" 10 =
      .ok ⟨"app", [⟨"D", "./Dockerfile", 10, "basic"⟩], ⟨[⟨"D", "D_CONTAINER"⟩]⟩,
           [⟨"v2", some ["A", "B", "C"]⟩, ⟨"v2", some ["D"]⟩], ["nodejs_compat"]⟩ ∧
    ([⟨"v2", some ["A", "B", "C"]⟩, ⟨"v2", some ["D"]⟩] : List Migration).map Migration.tag =
      ["v2", "v2"] := by
  decide

/-- Claim C4, amended: when migrations exist, the class is unregistered
and the latest migration holds 3 or more classes, the merge appends a new
migration holding only the class, tagged `"v" ++ toString (n + 1)` where
`n` is the number of migrations already present; the tag is not chosen to
avoid tags already in the document. -/
theorem mergeWranglerConfig_full_batch_tag (cfg : WranglerConfig)
    (cn bn dp : String) (mi : Nat)
    (hreg : classRegistered cn cfg.migrations = false)
    (hne : cfg.migrations ≠ [])
    (hfull : 3 ≤ ((cfg.migrations.getLast hne).new_sqlite_classes.getD []).length) :
    ∃ cfg', mergeWranglerConfig cfg cn bn dp mi = .ok cfg' ∧
      cfg'.migrations = cfg.migrations ++
        [{ tag := "v" ++ toString (cfg.migrations.length + 1),
           new_sqlite_classes := some [cn] }] :=
  ⟨_, mergeWranglerConfig_of_migrations_ok cfg cn bn dp mi _
        (mergeMigrations_eq_push cn cfg.migrations hreg hne hfull), rfl⟩

/-- Claim C4 witness: the amended theorem applied to a document whose
single migration `v1` is full; the new migration is tagged `v2`. -/
theorem mergeWranglerConfig_full_batch_tag_witness :
    ∃ cfg', mergeWranglerConfig ⟨"app", [], ⟨[]⟩, [⟨"v1", some ["A", "B", "C"]⟩], []⟩
        "D" "D_CONTAINER" "./Dockerfile" 10 = .ok cfg' ∧
      cfg'.migrations = [⟨"v1", some ["A", "B", "C"]⟩] ++
        [{ tag := "v" ++ toString (([⟨"v1", some ["A", "B", "C"]⟩] : List Migration).length + 1),
           new_sqlite_classes := some ["D"] }] :=
  mergeWranglerConfig_full_batch_tag ⟨"app", [], ⟨[]⟩, [⟨"v1", some ["A", "B", "C"]⟩], []⟩
    "D" "D_CONTAINER" "./Dockerfile" 10 (by decide) (by decide) (by decide)

/-- Claim C5: across any sequence of merges (all of which go through
batch allocation — the source has no reachable explicit-tag path), a
document whose migrations all hold at most 3 classes keeps every
migration's class list at no more than 3 entries. -/
theorem mergeSequence_batch_bound (steps : List MergeStep) (cfg cfg' : WranglerConfig)
    (hb : ∀ m ∈ cfg.migrations, (m.new_sqlite_classes.getD []).length ≤ 3)
    (h : mergeSequence steps cfg = .ok cfg') :
    ∀ m ∈ cfg'.migrations, (m.new_sqlite_classes.getD []).length ≤ 3 := by
  induction steps generalizing cfg with
  | nil =>
    rw [mergeSequence] at h
    cases h
    exact hb
  | cons s rest ih =>
    rw [mergeSequence] at h
    cases h1 : mergeWranglerConfig cfg s.className s.bindingName s.dockerfilePath
        s.maxInstances with
    | error e => rw [h1] at h; cases h
    | ok cfg1 =>
      rw [h1] at h
      exact ih cfg1 (mergeWranglerConfig_length_bound cfg cfg1 s.className s.bindingName
        s.dockerfilePath s.maxInstances hb h1) h

/-- Claim C5 witness: the bound applied to a concrete two-step sequence
starting from a freshly generated document, instantiated at the resulting
single migration. -/
theorem mergeSequence_batch_bound_witness :
    (((⟨"v1", some ["NginxContainer", "B", "C"]⟩ : Migration)).new_sqlite_classes.getD []).length ≤ 3 :=
  mergeSequence_batch_bound
    [⟨"B", "B_CONTAINER", "./Dockerfile", 10⟩, ⟨"C", "C_CONTAINER", "./Dockerfile2", 5⟩]
    (generateWranglerConfig "nginx" "NginxContainer" "NGINX_CONTAINER" "./Dockerfile.generated" 10)
    ⟨"nginx",
     [⟨"NginxContainer", "./Dockerfile.generated", 10, "basic"⟩,
      ⟨"B", "./Dockerfile", 10, "basic"⟩, ⟨"C", "./Dockerfile2", 5, "basic"⟩],
     ⟨[⟨"NginxContainer", "NGINX_CONTAINER"⟩, ⟨"B", "B_CONTAINER"⟩, ⟨"C", "C_CONTAINER"⟩]⟩,
     [⟨"v1", some ["NginxContainer", "B", "C"]⟩], ["nodejs_compat"]⟩
    (by decide) (by decide) ⟨"v1", some ["NginxContainer", "B", "C"]⟩ (by decide)

/-- Claim C9: the merge fails (the branch that evaluates the out-of-scope
`opts`/`ctx`, embedded as `Except.error ()`, reached before any write)
exactly when the document's migrations list is empty — equivalently, it
succeeds exactly when a migration already exists or the class is already
registered (a class can only be registered when a migration exists). -/
theorem mergeWranglerConfig_error_iff (cfg : WranglerConfig)
    (cn bn dp : String) (mi : Nat) :
    mergeWranglerConfig cfg cn bn dp mi = .error () ↔
      (cfg.migrations = [] ∧ classRegistered cn cfg.migrations = false) := by
  constructor
  · intro h
    cases hmm : mergeMigrations cn cfg.migrations with
    | error e =>
      exact (mergeMigrations_error_iff cn cfg.migrations).mp hmm
    | ok ms =>
      rw [mergeWranglerConfig_of_migrations_ok cfg cn bn dp mi ms hmm] at h
      cases h
  · intro hc
    have herr : mergeMigrations cn cfg.migrations = .error () :=
      (mergeMigrations_error_iff cn cfg.migrations).mpr hc
    simp [mergeWranglerConfig, herr]

/-- Claim C3: the `--no-prompt` flag cannot activate the non-interactive
branch.  Commander parses the flag to `opts.prompt = false` and never
creates the `opts.noPrompt` property that `autoDetect` reads
(utils.js line 61), so the read yields `undefined` (falsy) and a
near-tie still hands off to the interactive prompt instead of returning
the top-ranked result.  The last conjunct shows the branch does behave
as the claim describes on the same near-tie when `noPrompt` is truthy —
reachable only through config-file injection, not through the flag the
claim names. -/
theorem noPrompt_flag_still_prompts :
    (parseNoPromptFlag true).prompt = false ∧
    jsTruthyNoPrompt (parseNoPromptFlag true) = false ∧
    autoDetect (parseNoPromptFlag true) [⟨"container", 95⟩, ⟨"compose", 90⟩] =
      some (.prompt [⟨"container", 95⟩, ⟨"compose", 90⟩]) ∧
    autoDetect ⟨true, some true⟩ [⟨"container", 95⟩, ⟨"compose", 90⟩] =
      some (.value ⟨"container", 95⟩) := by
  decide

/-- Claim C6: with an empty working directory and positional argument
`"nginx:alpine"`, detection fires only the explicit-image signal at
confidence 0.95 (95 hundredths) with `metadata.image = "nginx:alpine"`;
scaffolding derives project name `nginx`, class `NginxContainer` (which
ends in `Container`), binding `NGINX_CONTAINER`, writes a generated build
descriptor `FROM nginx:alpine` / `EXPOSE 8080`, and the fresh document
holds exactly one migration, tagged `v1`, containing exactly that class. -/
theorem scenario_nginx_alpine :
    detect ⟨["nginx:alpine"], none, none, false, none, false⟩ =
      some ⟨95, ["Explicit image reference: nginx:alpine"], some "nginx:alpine", none⟩ ∧
    resolveProjectName none (some "nginx:alpine") "somedir" = "nginx" ∧
    resolveClassName none none "nginx" [] = "NginxContainer" ∧
    "NginxContainer" = "Nginx" ++ "Container" ∧
    deriveBindingName "NginxContainer" = "NGINX_CONTAINER" ∧
    generatedDockerfile "nginx:alpine" = "FROM nginx:alpine\nEXPOSE 8080" ∧
    generateWranglerConfig "nginx" "NginxContainer" "NGINX_CONTAINER"
        "./Dockerfile.generated" 10 =
      ⟨"nginx", [⟨"NginxContainer", "./Dockerfile.generated", 10, "basic"⟩],
       ⟨[⟨"NginxContainer", "NGINX_CONTAINER"⟩]⟩,
       [⟨"v1", some ["NginxContainer"]⟩], ["nodejs_compat"]⟩ := by
  decide

/-- Claim C7, counterexample to injectivity: the distinct class names
`"a"` and `"A"` derive the same binding name `"A_CONTAINER"`. -/
theorem deriveBindingName_case_collision :
    deriveBindingName "a" = deriveBindingName "A" ∧ "a" ≠ "A" := by
  decide

/-- Claim C7, amended: the binding-name derivation is a pure function of
the class name, but it is not injective — two class names derive the same
binding name exactly when their uppercased, first-suffix-stripped forms
coincide (for example, names differing only in letter case collide). -/
theorem deriveBindingName_collision_iff (c1 c2 : String) :
    deriveBindingName c1 = deriveBindingName c2 ↔ strippedUpper c1 = strippedUpper c2 := by
  constructor
  · intro h
    have h1 := congrArg String.data h
    rw [deriveBindingName, deriveBindingName, string_data_append, string_data_append] at h1
    exact string_eq_of_data_eq _ _ (List.append_cancel_right h1)
  · intro h
    rw [deriveBindingName, deriveBindingName, h]

/-- Claim C8, counterexample: forcing the unregistered type `foo` is not
fatal and exits with the success code (auto-detection silently proceeds
and scaffolding runs), and a registered forced type that detects nothing
exits with the config code 65, not the usage code 64. -/
theorem mainAction_forced_unregistered_not_usage :
    mainAction [⟨"container", true⟩] (some "foo") false false false true true =
      EXIT_CODES.SUCCESS ∧
    mainAction [⟨"container", false⟩] (some "container") false false false true true =
      EXIT_CODES.CONFIG ∧
    EXIT_CODES.SUCCESS ≠ EXIT_CODES.USAGE ∧
    EXIT_CODES.CONFIG ≠ EXIT_CODES.USAGE := by
  decide

/-- Claim C8, amended: the four exit codes are the distinct values 0
(success), 2 (partial: scaffold succeeded, deploy failed), 64 (usage:
auto-detection found no type) and 65 (config: a registered forced type
detected nothing, or scaffolding failed/was declined).  A forced type
whose id is not registered is ignored — the action behaves exactly as
auto-detection — rather than being fatal. -/
theorem mainAction_exit_codes :
    [EXIT_CODES.SUCCESS, EXIT_CODES.PARTIAL, EXIT_CODES.USAGE, EXIT_CODES.CONFIG] =
      [0, 2, 64, 65] ∧
    (∀ ds dm pm ship sOk dOk, ds.any (fun d => d.detects) = false →
      mainAction ds none dm pm ship sOk dOk = EXIT_CODES.USAGE) ∧
    (∀ ds t d ship sOk dOk, ds.find? (fun x => x.id == t) = some d → d.detects = false →
      mainAction ds (some t) false false ship sOk dOk = EXIT_CODES.CONFIG) ∧
    (∀ ds t dm pm ship sOk dOk, ds.find? (fun x => x.id == t) = none →
      mainAction ds (some t) dm pm ship sOk dOk = mainAction ds none dm pm ship sOk dOk) ∧
    (∀ ds ship dOk, ds.any (fun d => d.detects) = true →
      mainAction ds none false false ship false dOk = EXIT_CODES.CONFIG) ∧
    (∀ ds, ds.any (fun d => d.detects) = true →
      mainAction ds none false false true true false = EXIT_CODES.PARTIAL) ∧
    (∀ ds ship, ds.any (fun d => d.detects) = true →
      mainAction ds none false false ship true true = EXIT_CODES.SUCCESS) := by
  refine ⟨by decide, ?_, ?_, ?_, ?_, ?_, ?_⟩
  · intro ds dm pm ship sOk dOk h
    simp [mainAction, h]
  · intro ds t d ship sOk dOk h1 h2
    simp [mainAction, h1, h2]
  · intro ds t dm pm ship sOk dOk h
    simp [mainAction, h]
  · intro ds ship dOk h
    simp [mainAction, mainAfterDetect, h]
  · intro ds h
    simp [mainAction, mainAfterDetect, h]
  · intro ds ship h
    simp [mainAction, mainAfterDetect, h]

/-- Claim C8 witness: with one registered detector that finds nothing and
no forced type, the action exits with the usage code. -/
theorem mainAction_exit_codes_witness :
    mainAction [⟨"container", false⟩] none false false false true true = EXIT_CODES.USAGE :=
  mainAction_exit_codes.2.1 [⟨"container", false⟩] false false false true true (by decide)

/-- Claim C10: when the leading positional argument qualifies as an image
reference and the `.env` file parses to an `IMAGE=` value, the detection
result's image is the `.env` value — the `.env` signal is evaluated after
the argument and overwrites the image — so it is not the argument
whenever the two differ. -/
theorem detect_env_image_overrides_arg (ev : Evidence) (arg : String)
    (rest : List String) (content v : String)
    (hargs : ev.args = arg :: rest)
    (harg : ((jsIncludes arg ':' || jsIncludes arg '/') && (jsExtname arg == "")) = true)
    (henv : ev.envContent = some content)
    (hv : parseEnvImage content = some v) :
    ∃ d, detect ev = some d ∧ d.image = some v ∧
      (v ≠ arg → d.image ≠ some arg) := by
  obtain ⟨args, df, cf, dd, env, mf⟩ := ev
  simp only at hargs henv
  subst hargs
  subst henv
  cases df <;> cases cf <;> cases dd <;> cases mf <;>
    (simp only [detect, harg, Option.some_bind, hv, if_true, Bool.false_eq_true, if_false];
     rw [if_neg (by decide)];
     exact ⟨_, rfl, rfl, fun hne hc => hne (Option.some.inj hc)⟩)

/-- Claim C10 witness: argument `nginx:alpine` together with an `.env`
containing `IMAGE=redis:7` detects with image `redis:7`. -/
theorem detect_env_image_overrides_arg_witness :
    ∃ d, detect ⟨["nginx:alpine"], none, none, false, some "IMAGE=redis:7", false⟩ =
        some d ∧ d.image = some "redis:7" ∧
      ("redis:7" ≠ "nginx:alpine" → d.image ≠ some "nginx:alpine") :=
  detect_env_image_overrides_arg
    ⟨["nginx:alpine"], none, none, false, some "IMAGE=redis:7", false⟩
    "nginx:alpine" [] "IMAGE=redis:7" "redis:7" rfl (by decide) rfl (by decide)

/-- Claim C7 witness: the collision criterion instantiated at the
concrete pair `"x"`, `"X"`. -/
theorem deriveBindingName_collision_iff_witness :
    deriveBindingName "x" = deriveBindingName "X" ↔
      strippedUpper "x" = strippedUpper "X" :=
  deriveBindingName_collision_iff "x" "X"

/-- Claim C9 witness: the failure criterion instantiated at a concrete
document with no migrations. -/
theorem mergeWranglerConfig_error_iff_witness :
    mergeWranglerConfig ⟨"app", [], ⟨[]⟩, [], []⟩ "X" "X_CONTAINER" "./Dockerfile" 10 =
        .error () ↔
      (([] : List Migration) = [] ∧ classRegistered "X" ([] : List Migration) = false) :=
  mergeWranglerConfig_error_iff ⟨"app", [], ⟨[]⟩, [], []⟩ "X" "X_CONTAINER" "./Dockerfile" 10
